import Mathlib

/-!
Verification of the login page component in src/app/login/page.tsx.

The component is embedded shallowly: each event handler becomes a pure
function from its inputs (field values and the outcome of the external
auth call) to the list of observable events it performs, paired with an
optional uncaught exception value. The try/catch/finally structure of
the source is mirrored by explicit routing of the thrown value.
-/

namespace LoginPage

/-- Variant of a toast, mirroring the variant field passed to the toast sink. -/
inductive Variant where
  | default
  | destructive
deriving DecidableEq, Repr

/-- A toast call, mirroring the object literal passed to toast in the source. -/
structure Toast where
  title : String
  description : String
  variant : Variant
deriving DecidableEq, Repr

/-- Observable effects performed by the two handlers, in order. -/
inductive Event where
  | setLoading : Bool → Event
  | setGoogleLoading : Bool → Event
  | callLogin : String → String → Event
  | callLoginWithGoogle : Event
  | consoleError : Event
  | toast : Toast → Event
deriving DecidableEq, Repr

/-- Shape of a value caught by the catch clause of handleSubmit.
isObject models the guard that the value is truthy and of object type;
hasResponseField models the in-operator test for a response property;
responseDataError models the optional chain response.data.error when it
is a string; isErrorInstance and message model instanceof Error and the
message property. -/
structure LoginError where
  isObject : Bool
  hasResponseField : Bool
  responseDataError : Option String
  isErrorInstance : Bool
  message : String
deriving DecidableEq, Repr

/-- JavaScript String.prototype.trim: strip leading and trailing
whitespace. Stated over the character list so that it evaluates by
kernel reduction. -/
def jsTrim (s : String) : String :=
  String.mk
    (((s.data.dropWhile Char.isWhitespace).reverse.dropWhile Char.isWhitespace).reverse)

/-- The generic fallback message used in the catch clause. -/
def fallbackMessage : String := "login failed. please try again."

/-- The errorMessage computation of the catch clause in handleSubmit.
The branch on an object carrying a response field uses JavaScript
or-falsiness: an absent or empty server string falls back to the
generic message. -/
def errorMessage (e : LoginError) : String :=
  if e.isObject && e.hasResponseField then
    match e.responseDataError with
    | some s => if s = "" then fallbackMessage else s
    | none => fallbackMessage
  else if e.isErrorInstance then
    e.message
  else
    fallbackMessage

/-- Outcome of running a handler: the events it performed, and the
thrown value it propagated to its caller, if any. -/
abbrev Outcome (ε : Type) := List Event × Option ε

/-- The handleSubmit handler. Inputs are the current email and password
field values and the outcome of the awaited external login call. -/
def handleSubmit (email password : String) (loginResult : Except LoginError Unit) :
    Outcome LoginError :=
  if jsTrim email = "" then
    ([Event.toast ⟨"error", "email is required", Variant.destructive⟩], none)
  else if jsTrim password = "" then
    ([Event.toast ⟨"error", "password is required", Variant.destructive⟩], none)
  else
    let body : Outcome LoginError :=
      match loginResult with
      | Except.ok _ =>
          ([Event.callLogin email password,
            Event.toast ⟨"success", "login successful", Variant.default⟩], none)
      | Except.error e => ([Event.callLogin email password], some e)
    let afterCatch : Outcome LoginError :=
      match body.2 with
      | none => body
      | some e =>
          (body.1 ++
            [Event.toast ⟨"login failed", errorMessage e, Variant.destructive⟩], none)
    (Event.setLoading true :: afterCatch.1 ++ [Event.setLoading false], afterCatch.2)

/-- The handleGoogleLogin handler. The input records whether the
synchronous call to loginWithGoogle throws. -/
def handleGoogleLogin (throws : Bool) : Outcome Unit :=
  let body : Outcome Unit :=
    ([Event.callLoginWithGoogle], if throws then some () else none)
  let afterCatch : Outcome Unit :=
    match body.2 with
    | none => body
    | some _ =>
        (body.1 ++
          [Event.consoleError,
           Event.toast ⟨"error", "failed to start google login. please try again.",
             Variant.destructive⟩,
           Event.setGoogleLoading false], none)
  (Event.setGoogleLoading true :: afterCatch.1, afterCatch.2)

/-- The local state of the component relevant to the claims. -/
structure FormState where
  isLoading : Bool
  isGoogleLoading : Bool
deriving DecidableEq, Repr

/-- Apply one event to the component state. -/
def applyEvent (s : FormState) : Event → FormState
  | Event.setLoading b => { s with isLoading := b }
  | Event.setGoogleLoading b => { s with isGoogleLoading := b }
  | _ => s

/-- Run a list of events over the component state. -/
def runEvents (s : FormState) (es : List Event) : FormState :=
  es.foldl applyEvent s

/-- The disabled attribute of the submit button in the rendered form. -/
def submitButtonDisabled (s : FormState) : Bool :=
  s.isLoading || s.isGoogleLoading

/-- The disabled attribute of the Google sign-in button. -/
def googleButtonDisabled (s : FormState) : Bool :=
  s.isGoogleLoading || s.isLoading

/-- Whether an event is a call to the external login service. -/
def isCallLogin : Event → Bool
  | Event.callLogin _ _ => true
  | _ => false

/-- Whether an event is a toast call. -/
def isToast : Event → Bool
  | Event.toast _ => true
  | _ => false

/-- Message precedence as the claim words it: a server-supplied string,
when exposed, is shown verbatim; otherwise the message of an Error
instance; otherwise the generic fallback. Stated from the claim text,
for comparison with errorMessage. -/
def specClaimedErrorMessage (e : LoginError) : String :=
  match e.responseDataError with
  | some s => s
  | none => if e.isErrorInstance then e.message else fallbackMessage

/-- C2: a submission with a blank email emits exactly the destructive
email-required toast and performs no call to the auth service. -/
theorem C2_blank_email_no_service_call (email password : String)
    (loginResult : Except LoginError Unit) (h : jsTrim email = "") :
    handleSubmit email password loginResult =
      ([Event.toast ⟨"error", "email is required", Variant.destructive⟩], none)
    ∧ ∀ ev ∈ (handleSubmit email password loginResult).1, isCallLogin ev = false := by
  refine ⟨by simp [handleSubmit, h], ?_⟩
  intro ev hev
  simp [handleSubmit, h] at hev
  simp [hev, isCallLogin]

/-- Witness for C2 at a whitespace-only email. -/
theorem C2_blank_email_no_service_call_witness :
    handleSubmit "  " "x" (Except.ok ()) =
      ([Event.toast ⟨"error", "email is required", Variant.destructive⟩], none)
    ∧ ∀ ev ∈ (handleSubmit "  " "x" (Except.ok ())).1, isCallLogin ev = false :=
  C2_blank_email_no_service_call "  " "x" (Except.ok ()) (by decide)

/-- C3: a submission with a non-blank email and a blank password emits
exactly the destructive password-required toast and performs no call to
the auth service. -/
theorem C3_blank_password_no_service_call (email password : String)
    (loginResult : Except LoginError Unit)
    (he : jsTrim email ≠ "") (hp : jsTrim password = "") :
    handleSubmit email password loginResult =
      ([Event.toast ⟨"error", "password is required", Variant.destructive⟩], none)
    ∧ ∀ ev ∈ (handleSubmit email password loginResult).1, isCallLogin ev = false := by
  refine ⟨by simp [handleSubmit, he, hp], ?_⟩
  intro ev hev
  simp [handleSubmit, he, hp] at hev
  simp [hev, isCallLogin]

/-- Witness for C3 at a whitespace-only password. -/
theorem C3_blank_password_no_service_call_witness :
    handleSubmit "a@b.com" " " (Except.ok ()) =
      ([Event.toast ⟨"error", "password is required", Variant.destructive⟩], none)
    ∧ ∀ ev ∈ (handleSubmit "a@b.com" " " (Except.ok ())).1, isCallLogin ev = false :=
  C3_blank_password_no_service_call "a@b.com" " " (Except.ok ()) (by decide) (by decide)

/-- C4: with non-blank fields and a resolving login, the success toast
is shown and the loading flag is false once the submission completes,
from any starting state. -/
theorem C4_success_toast_and_loading_cleared (email password : String) (s : FormState)
    (he : jsTrim email ≠ "") (hp : jsTrim password ≠ "") :
    Event.toast ⟨"success", "login successful", Variant.default⟩ ∈
        (handleSubmit email password (Except.ok ())).1
    ∧ (runEvents s (handleSubmit email password (Except.ok ())).1).isLoading = false := by
  constructor
  · simp [handleSubmit, he, hp]
  · simp [handleSubmit, he, hp, runEvents, applyEvent]

/-- Witness for C4 at the example of the spec. -/
theorem C4_success_toast_and_loading_cleared_witness :
    Event.toast ⟨"success", "login successful", Variant.default⟩ ∈
        (handleSubmit "a@b.com" "pw" (Except.ok ())).1
    ∧ (runEvents ⟨false, false⟩ (handleSubmit "a@b.com" "pw" (Except.ok ())).1).isLoading
        = false :=
  C4_success_toast_and_loading_cleared "a@b.com" "pw" ⟨false, false⟩ (by decide) (by decide)

/-- C5: once field validation passes, the loading flag is raised before
the auth service is called and lowered after the attempt, whether the
login resolves or rejects; the final loading flag is false from any
starting state. -/
theorem C5_loading_set_before_call_cleared_after (email password : String)
    (r : Except LoginError Unit) (s : FormState)
    (he : jsTrim email ≠ "") (hp : jsTrim password ≠ "") :
    (∃ mid, (handleSubmit email password r).1 =
      Event.setLoading true :: Event.callLogin email password :: mid
        ++ [Event.setLoading false])
    ∧ (runEvents s (handleSubmit email password r).1).isLoading = false := by
  cases r with
  | ok u =>
      refine ⟨⟨[Event.toast ⟨"success", "login successful", Variant.default⟩], ?_⟩, ?_⟩ <;>
        simp [handleSubmit, he, hp, runEvents, applyEvent]
  | error e =>
      refine ⟨⟨[Event.toast ⟨"login failed", errorMessage e, Variant.destructive⟩], ?_⟩, ?_⟩ <;>
        simp [handleSubmit, he, hp, runEvents, applyEvent]

/-- Witness for C5 at a resolving login. -/
theorem C5_loading_set_before_call_cleared_after_witness :
    (∃ mid, (handleSubmit "a@b.com" "pw" (Except.ok ())).1 =
      Event.setLoading true :: Event.callLogin "a@b.com" "pw" :: mid
        ++ [Event.setLoading false])
    ∧ (runEvents ⟨false, false⟩ (handleSubmit "a@b.com" "pw" (Except.ok ())).1).isLoading
        = false :=
  C5_loading_set_before_call_cleared_after "a@b.com" "pw" (Except.ok ()) ⟨false, false⟩
    (by decide) (by decide)

/-- C6: every Google sign-in invocation raises the Google loading flag
first; on a synchronous throw the error toast is shown and the flag is
lowered, otherwise the trace is only the raise and the call, leaving
the flag raised. -/
theorem C6_google_loading_flag (throws : Bool) (s : FormState) :
    (handleGoogleLogin throws).1.head? = some (Event.setGoogleLoading true)
    ∧ (runEvents s (handleGoogleLogin throws).1).isGoogleLoading = !throws
    ∧ (handleGoogleLogin throws).1 =
        (if throws then
          [Event.setGoogleLoading true, Event.callLoginWithGoogle, Event.consoleError,
           Event.toast ⟨"error", "failed to start google login. please try again.",
             Variant.destructive⟩,
           Event.setGoogleLoading false]
        else [Event.setGoogleLoading true, Event.callLoginWithGoogle]) := by
  cases throws <;> simp [handleGoogleLogin, runEvents, applyEvent]

/-- C7: whenever either loading flag is raised, both the submit button
and the Google button carry a true disabled attribute. -/
theorem C7_controls_disabled_while_loading (s : FormState)
    (h : s.isLoading = true ∨ s.isGoogleLoading = true) :
    submitButtonDisabled s = true ∧ googleButtonDisabled s = true := by
  cases h with
  | inl h => simp [submitButtonDisabled, googleButtonDisabled, h]
  | inr h => simp [submitButtonDisabled, googleButtonDisabled, h]

/-- Witness for C7 at a state with the submit loading flag raised. -/
theorem C7_controls_disabled_while_loading_witness :
    submitButtonDisabled ⟨true, false⟩ = true
    ∧ googleButtonDisabled ⟨true, false⟩ = true :=
  C7_controls_disabled_while_loading ⟨true, false⟩ (Or.inl rfl)

/-- C8: neither handler ever propagates a thrown value to its caller,
for every input and every outcome of the external auth calls; a caught
login error is surfaced exactly as the destructive toast inside a trace
that makes no console log, performs a single service call and ends the
attempt, and a synchronous Google throw is surfaced as the console log
and the destructive toast. -/
theorem C8_errors_caught_and_surfaced (email password : String) (err : LoginError)
    (he : jsTrim email ≠ "") (hp : jsTrim password ≠ "") :
    (∀ e p r, (handleSubmit e p r).2 = none)
    ∧ (∀ b, (handleGoogleLogin b).2 = none)
    ∧ (handleSubmit email password (Except.error err)).1 =
        [Event.setLoading true, Event.callLogin email password,
         Event.toast ⟨"login failed", errorMessage err, Variant.destructive⟩,
         Event.setLoading false]
    ∧ (∀ ev ∈ (handleSubmit email password (Except.error err)).1,
        ev ≠ Event.consoleError)
    ∧ ((handleSubmit email password (Except.error err)).1.filter isCallLogin).length = 1
    ∧ (handleGoogleLogin true).1 =
        [Event.setGoogleLoading true, Event.callLoginWithGoogle, Event.consoleError,
         Event.toast ⟨"error", "failed to start google login. please try again.",
           Variant.destructive⟩,
         Event.setGoogleLoading false] := by
  have htrace : (handleSubmit email password (Except.error err)).1 =
      [Event.setLoading true, Event.callLogin email password,
       Event.toast ⟨"login failed", errorMessage err, Variant.destructive⟩,
       Event.setLoading false] := by
    simp [handleSubmit, he, hp]
  refine ⟨?_, ?_, htrace, ?_, ?_, rfl⟩
  · intro e p r
    by_cases h1 : jsTrim e = ""
    · simp [handleSubmit, h1]
    · by_cases h2 : jsTrim p = ""
      · simp [handleSubmit, h1, h2]
      · cases r <;> simp [handleSubmit, h1, h2]
  · intro b
    cases b <;> rfl
  · intro ev hev
    rw [htrace] at hev
    simp at hev
    rcases hev with h | h | h | h <;> simp [h]
  · rw [htrace]
    rfl

/-- Witness for C8 at a rejected login carrying a plain Error. -/
theorem C8_errors_caught_and_surfaced_witness :
    (∀ e p r, (handleSubmit e p r).2 = none)
    ∧ (∀ b, (handleGoogleLogin b).2 = none)
    ∧ (handleSubmit "a@b.com" "pw"
          (Except.error ⟨false, false, none, true, "boom"⟩)).1 =
        [Event.setLoading true, Event.callLogin "a@b.com" "pw",
         Event.toast ⟨"login failed", errorMessage ⟨false, false, none, true, "boom"⟩,
           Variant.destructive⟩,
         Event.setLoading false]
    ∧ (∀ ev ∈ (handleSubmit "a@b.com" "pw"
          (Except.error ⟨false, false, none, true, "boom"⟩)).1,
        ev ≠ Event.consoleError)
    ∧ ((handleSubmit "a@b.com" "pw"
          (Except.error ⟨false, false, none, true, "boom"⟩)).1.filter isCallLogin).length = 1
    ∧ (handleGoogleLogin true).1 =
        [Event.setGoogleLoading true, Event.callLoginWithGoogle, Event.consoleError,
         Event.toast ⟨"error", "failed to start google login. please try again.",
           Variant.destructive⟩,
         Event.setGoogleLoading false] :=
  C8_errors_caught_and_surfaced "a@b.com" "pw" ⟨false, false, none, true, "boom"⟩
    (by decide) (by decide)

/-- C9: when both fields are blank, the trace is the single
email-required toast: the email check runs first and aborts before the
password check. -/
theorem C9_both_blank_only_email_toast (email password : String)
    (r : Except LoginError Unit) (he : jsTrim email = "") (hp : jsTrim password = "") :
    (handleSubmit email password r).1 =
      [Event.toast ⟨"error", "email is required", Variant.destructive⟩]
    ∧ ((handleSubmit email password r).1.filter isToast).length = 1 := by
  refine ⟨by simp [handleSubmit, he], ?_⟩
  simp [handleSubmit, he, isToast]

/-- Witness for C9 at an empty email and whitespace-only password. -/
theorem C9_both_blank_only_email_toast_witness :
    (handleSubmit "" " " (Except.ok ())).1 =
      [Event.toast ⟨"error", "email is required", Variant.destructive⟩]
    ∧ ((handleSubmit "" " " (Except.ok ())).1.filter isToast).length = 1 :=
  C9_both_blank_only_email_toast "" " " (Except.ok ()) (by decide) (by decide)

/-- C10: once validation passes, the auth service receives the original
untrimmed field values, and no call with any other arguments occurs. -/
theorem C10_untrimmed_arguments (email password : String) (r : Except LoginError Unit)
    (he : jsTrim email ≠ "") (hp : jsTrim password ≠ "") :
    Event.callLogin email password ∈ (handleSubmit email password r).1
    ∧ ∀ e p, Event.callLogin e p ∈ (handleSubmit email password r).1 →
        e = email ∧ p = password := by
  refine ⟨?_, ?_⟩
  · cases r <;> simp [handleSubmit, he, hp]
  · intro e p hmem
    cases r <;> simp [handleSubmit, he, hp] at hmem <;> exact hmem

/-- Witness for C10 at field values padded with whitespace. -/
theorem C10_untrimmed_arguments_witness :
    Event.callLogin " a@b.com " " pw" ∈
        (handleSubmit " a@b.com " " pw" (Except.ok ())).1
    ∧ ∀ e p, Event.callLogin e p ∈ (handleSubmit " a@b.com " " pw" (Except.ok ())).1 →
        e = " a@b.com " ∧ p = " pw" :=
  C10_untrimmed_arguments " a@b.com " " pw" (Except.ok ()) (by decide) (by decide)

/-- C1 as stated fails on the code: a rejected login whose error is an
Error instance carrying a response property but no server string shows
the generic fallback, although the claimed precedence demands the
message of the error. -/
theorem C1_claimed_precedence_counterexample :
    (handleSubmit "a@b.com" "pw"
        (Except.error ⟨true, true, none, true, "boom"⟩)).1 =
      [Event.setLoading true, Event.callLogin "a@b.com" "pw",
       Event.toast ⟨"login failed", fallbackMessage, Variant.destructive⟩,
       Event.setLoading false]
    ∧ specClaimedErrorMessage ⟨true, true, none, true, "boom"⟩ = "boom"
    ∧ fallbackMessage ≠ "boom" := by
  refine ⟨by decide, by decide, by decide⟩

/-- C1 amended: on a rejected login the shown description is computed
by errorMessage, which branches first on the error being a truthy
object with a response property: there a present non-empty server
string is shown verbatim and anything else falls back to the generic
message, even when the error has its own message; only otherwise an
Error instance has its message shown; otherwise the generic fallback
is shown. -/
theorem C1_amended_error_message_precedence (email password : String) (err : LoginError)
    (he : jsTrim email ≠ "") (hp : jsTrim password ≠ "") :
    Event.toast ⟨"login failed", errorMessage err, Variant.destructive⟩ ∈
        (handleSubmit email password (Except.error err)).1
    ∧ (∀ s, err.isObject = true → err.hasResponseField = true →
        err.responseDataError = some s → s ≠ "" → errorMessage err = s)
    ∧ (err.isObject = true → err.hasResponseField = true →
        (err.responseDataError = none ∨ err.responseDataError = some "") →
        errorMessage err = fallbackMessage)
    ∧ ((err.isObject = false ∨ err.hasResponseField = false) →
        err.isErrorInstance = true → errorMessage err = err.message)
    ∧ ((err.isObject = false ∨ err.hasResponseField = false) →
        err.isErrorInstance = false → errorMessage err = fallbackMessage) := by
  refine ⟨by simp [handleSubmit, he, hp], ?_, ?_, ?_, ?_⟩
  · intro s h1 h2 h3 h4
    simp [errorMessage, h1, h2, h3, h4]
  · intro h1 h2 h3
    rcases h3 with h3 | h3 <;> simp [errorMessage, h1, h2, h3]
  · intro h1 h2
    rcases h1 with h1 | h1 <;> simp [errorMessage, h1, h2]
  · intro h1 h2
    rcases h1 with h1 | h1 <;> simp [errorMessage, h1, h2]

/-- Witness for the amended C1 at a structured server error. -/
theorem C1_amended_error_message_precedence_witness :
    Event.toast ⟨"login failed",
        errorMessage ⟨true, true, some "invalid credentials", false, ""⟩,
        Variant.destructive⟩ ∈
      (handleSubmit "a@b.com" "pw"
        (Except.error ⟨true, true, some "invalid credentials", false, ""⟩)).1
    ∧ (∀ s, (true : Bool) = true → (true : Bool) = true →
        (some "invalid credentials" : Option String) = some s → s ≠ "" →
        errorMessage ⟨true, true, some "invalid credentials", false, ""⟩ = s)
    ∧ ((true : Bool) = true → (true : Bool) = true →
        ((some "invalid credentials" : Option String) = none
          ∨ (some "invalid credentials" : Option String) = some "") →
        errorMessage ⟨true, true, some "invalid credentials", false, ""⟩ = fallbackMessage)
    ∧ (((true : Bool) = false ∨ (true : Bool) = false) →
        (false : Bool) = true →
        errorMessage ⟨true, true, some "invalid credentials", false, ""⟩ = "")
    ∧ (((true : Bool) = false ∨ (true : Bool) = false) →
        (false : Bool) = false →
        errorMessage ⟨true, true, some "invalid credentials", false, ""⟩ = fallbackMessage) :=
  C1_amended_error_message_precedence "a@b.com" "pw"
    ⟨true, true, some "invalid credentials", false, ""⟩ (by decide) (by decide)

end LoginPage
